import Mathlib

/-!
Shallow embedding of the `sonos` package (UPnP/SOAP control-plane client for
Sonos home-audio devices): device discovery, zone directory, service
resolution, and the playback control operations, together with proofs of the
specification claims about them.

Network effects are modelled explicitly: every operation returns the list of
network calls it issues alongside its result, and the remote side's answers
are passed in as oracle parameters (per-device responses in the discovery
input, per-call responses for control operations).
-/

namespace Sonos

/-! ### Strings helpers (Go `strings.Contains`, `fmt` verbs) -/

/-- Is the first character list a leading segment of the second
(`bytes.HasPrefix` on rune lists)? -/
def startsWithChars : List Char → List Char → Bool
  | [], _ => true
  | _ :: _, [] => false
  | a :: as, b :: bs => a = b && startsWithChars as bs

/-- Does `s` contain `sub` as a contiguous run (helper for `strings.Contains`)? -/
def hasSubChars (sub : List Char) : List Char → Bool
  | [] => startsWithChars sub []
  | c :: rest => startsWithChars sub (c :: rest) || hasSubChars sub rest

/-- Go `strings.Contains s sub`. -/
def containsSub (s sub : String) : Bool :=
  hasSubChars sub.data s.data

/-- Go `%q` formatting of a string argument (quotation; escape sequences do not
arise for the strings in scope). -/
def goQuote (s : String) : String := "\"" ++ s ++ "\""

/-- Go `strconv.Itoa` / `%d`: decimal string of an integer, with a leading
minus sign when negative. -/
def itoa (v : Int) : String := toString v

/-- Go `%02d`: decimal, zero-padded on the left to at least two digits. -/
def pad2 (n : Int) : String :=
  if 0 ≤ n ∧ n < 10 then "0" ++ toString n else toString n

/-! ### Data model: devices, network calls -/

/-- Go `goupnp.Device`, restricted to the attributes this package reads: the
manufacturer string and the list of advertised service types (in the order
`FindService` scans them). -/
structure GoDevice where
  manufacturer : String
  services : List String
  deriving DecidableEq, Repr

/-- Service type constants used by the package. -/
def devPropertiesService : String := "urn:schemas-upnp-org:service:DeviceProperties:1"

def URN_AVTransport_1 : String := "urn:schemas-upnp-org:service:AVTransport:1"

def URN_ContentDirectory_1 : String := "urn:schemas-upnp-org:service:ContentDirectory:1"

def URN_RenderingControl_1 : String := "urn:schemas-upnp-org:service:RenderingControl:1"

/-- Go `dev.FindService(t)` yields a non-empty list exactly when the device
advertises a service of type `t`. -/
def GoDevice.hasService (d : GoDevice) (t : String) : Bool :=
  d.services.contains t

/-- A network call issued by this layer: either the SSDP discovery probe or a
SOAP action invocation. `ctxPassed` records whether the caller-supplied
context was handed to the transport for this call. -/
inductive NetCall where
  | probe (target : String) (ctxPassed : Bool)
  | action (ctxPassed : Bool) (serviceType : String) (actionName : String)
      (args : List (String × String))
  deriving DecidableEq, Repr

/-- Whether a network call received the caller's cancellation/deadline
context. -/
def NetCall.receivesCtx : NetCall → Bool
  | .probe _ c => c
  | .action c _ _ _ => c

/-- Function `serviceClient`: resolve a device's service of the given type; fails with
"unknown service" when the device advertises none (pure lookup, no network
call). -/
def serviceClient (dev : GoDevice) (serviceType : String) : Except String Unit :=
  if dev.hasService serviceType then .ok ()
  else .error ("unknown service " ++ goQuote serviceType ++ " for device")

/-! ### Play modes -/

/-- Go `type PlayMode int`: the Go type is an integer, with six declared
constants (iota 0..5). -/
def NormalPlayMode : Int := 0

def RepeatAll : Int := 1

def RepeatOne : Int := 2

def Shuffle : Int := 3

def ShuffleRepeat : Int := 4

def ShuffleRepeatOne : Int := 5

/-- The six declared `PlayMode` constants, the closed enumeration. -/
def declaredPlayModes : List Int :=
  [NormalPlayMode, RepeatAll, RepeatOne, Shuffle, ShuffleRepeat, ShuffleRepeatOne]

/-- Map `playModeIDs`: the map from `PlayMode` to wire token. -/
def playModeIDs : List (Int × String) :=
  [(NormalPlayMode, "NORMAL"),
   (RepeatAll, "REPEAT_ALL"),
   (RepeatOne, "REPEAT_ONE"),
   (Shuffle, "SHUFFLE_NOREPEAT"),
   (ShuffleRepeat, "SHUFFLE"),
   (ShuffleRepeatOne, "SHUFFLE_REPEAT_ONE")]

/-- Go map access `playModeIDs[mode]`: the stored value, or the zero value
`""` when the key is absent. -/
def playModeToken (m : Int) : String :=
  (playModeIDs.lookup m).getD ""

/-! ### Sleep timer duration encoding -/

/-- Go `time.Duration` is a count of nanoseconds (`int64`). -/
def nsPerSecond : Int := 1000000000

def nsPerMinute : Int := 60000000000

def nsPerHour : Int := 3600000000000

/-- The duration-string computation inside `Device.SetSleepTimer`: empty for a
non-positive duration, otherwise `%02d:%02d:%02d` of the hour/minute/second
decomposition obtained by repeated division and subtraction. -/
def sleepTimerString (duration : Int) : String :=
  if duration > 0 then
    let hh := duration / nsPerHour
    let d1 := duration - hh * nsPerHour
    let mm := d1 / nsPerMinute
    let d2 := d1 - mm * nsPerMinute
    let ss := d2 / nsPerSecond
    pad2 hh ++ ":" ++ pad2 mm ++ ":" ++ pad2 ss
  else ""

/-- The specification's reading of the encoding: truncate to whole seconds,
then zero-padded hours / minutes-of-hour / seconds-of-minute; empty for
non-positive durations. -/
def sleepTimerStringSpec (duration : Int) : String :=
  if duration > 0 then
    let t := duration / nsPerSecond
    pad2 (t / 3600) ++ ":" ++ pad2 (t / 60 % 60) ++ ":" ++ pad2 (t % 60)
  else ""

/-! ### Discovery engine and zone directory -/

/-- One entry of the discovery response sequence (`goupnp.MaybeRootDevice`),
together with the remote side's answer to the `GetZoneAttributes` query that
`Discover` would issue against that device: either an error or the
`CurrentZoneName` response field. -/
structure MRD where
  err : Option String
  dev : GoDevice
  zoneResp : Except String String

/-- Type `Client`: the flat discovered device list and the zone-name → device-list
mapping, the latter as an association list with unique keys (a Go map whose
per-key lists are in discovery-response order). -/
structure Client where
  devices : List GoDevice
  zones : List (String × List GoDevice)
  deriving DecidableEq, Repr

/-- Go map lookup `c.zones[zone]` with its `ok` flag: `some devs` when the key
is present. -/
def lookupZone : List (String × List GoDevice) → String → Option (List GoDevice)
  | [], _ => none
  | (k, ds) :: rest, z => if k = z then some ds else lookupZone rest z

/-- Go `zones[zone] = append(zones[zone], dev)` on the association-list
representation. -/
def zoneAppend : List (String × List GoDevice) → String → GoDevice →
    List (String × List GoDevice)
  | [], z, d => [(z, [d])]
  | (k, ds) :: rest, z, d =>
      if k = z then (k, ds ++ [d]) :: rest else (k, ds) :: zoneAppend rest z d

/-- The devices recorded for a zone (empty when the key is absent). -/
def Client.zoneDevs (c : Client) (z : String) : List GoDevice :=
  (lookupZone c.zones z).getD []

/-- Is a discovery entry retained: no probe error, and the manufacturer string
contains the vendor name? -/
def MRD.retained (m : MRD) : Bool :=
  m.err.isNone && containsSub m.dev.manufacturer "Sonos, Inc."

/-- Is a discovery entry added to a zone: retained, the zone-properties
service resolves, and the `GetZoneAttributes` invocation succeeds? -/
def MRD.zoned (m : MRD) : Bool :=
  m.retained && m.dev.hasService devPropertiesService && m.zoneResp.isOk

/-- The body of `Discover`'s response loop for one entry: skip errored probes;
filter by manufacturer; append retained devices to the flat list; resolve the
device-properties service and invoke `GetZoneAttributes` (a context-carrying
network call); on success append the device to its zone's list, on failure
log and continue. -/
def discoverStep (st : Client × List NetCall) (m : MRD) : Client × List NetCall :=
  match m.err with
  | some _ => st
  | none =>
    if containsSub m.dev.manufacturer "Sonos, Inc." then
      let c := { st.1 with devices := st.1.devices ++ [m.dev] }
      if m.dev.hasService devPropertiesService then
        let call := NetCall.action true devPropertiesService "GetZoneAttributes" []
        let tr := st.2 ++ [call]
        match m.zoneResp with
        | .error _ => (c, tr)
        | .ok zone => ({ c with zones := zoneAppend c.zones zone m.dev }, tr)
      else (c, st.2)
    else st

/-- The loop of `Discover` over the discovery responses. -/
def discoverLoop : Client × List NetCall → List MRD → Client × List NetCall
  | st, [] => st
  | st, m :: rest => discoverLoop (discoverStep st m) rest

/-- Function `Discover` on a successful probe: the `Client` built from the response
sequence, and the network-call trace (the probe itself first). -/
def discoverRun (mrds : List MRD) : Client × List NetCall :=
  discoverLoop ({ devices := [], zones := [] }, [NetCall.probe devPropertiesService false]) mrds

/-- Function `Discover(ctx)`: issues the SSDP probe via `goupnp.DiscoverDevices`, which
is called without the caller's context; a probe failure is fatal
(wrapped), any later per-device failure is absorbed by the loop. -/
def Discover (probeResult : Except String (List MRD)) :
    List NetCall × Except String Client :=
  match probeResult with
  | .error e => ([NetCall.probe devPropertiesService false],
      .error ("discovering AV1: " ++ e))
  | .ok mrds => ((discoverRun mrds).2, .ok (discoverRun mrds).1)

/-- Type `Device`: a zone-resolved handle wrapping one chosen device. -/
structure Device where
  dev : GoDevice
  deriving DecidableEq, Repr

/-- The loop of `Client.ZoneDevice`: the first device advertising the
AVTransport service yields the handle; otherwise the "no usable device"
error. -/
def findAV1 (zone : String) : List GoDevice → Except String Device
  | [] => .error ("did not find an AV1 service in zone " ++ goQuote zone)
  | d :: rest =>
      match serviceClient d URN_AVTransport_1 with
      | .ok _ => .ok { dev := d }
      | .error _ => findAV1 zone rest

/-- Method `Client.ZoneDevice`: look up the zone key; absent keys fail with the
"unknown zone" error; otherwise scan the zone's devices for the first with
the AVTransport service. -/
def Client.ZoneDevice (c : Client) (zone : String) : Except String Device :=
  match lookupZone c.zones zone with
  | none => .error ("unknown zone " ++ goQuote zone ++ ", or it has no devices")
  | some devs => findAV1 zone devs

/-! ### Control operations

Each operation is one SOAP action invocation through `Device.soap`: resolve
the service on the wrapped device (pure), then perform the remote call with
the caller's context (`PerformActionCtx`). The remote outcome is the oracle
parameter `resp`; the returned trace lists the network calls issued. -/

/-- Method `Device.soap` for actions whose response payload is ignored: resolution
failure issues no call; otherwise exactly one context-carrying action call. -/
def Device.soap (d : Device) (resp : Except String Unit) (serviceType actionName : String)
    (args : List (String × String)) : List NetCall × Except String Unit :=
  match serviceClient d.dev serviceType with
  | .error e => ([], .error e)
  | .ok _ =>
      ([NetCall.action true serviceType actionName args],
       match resp with
       | .error e => .error e
       | .ok _ => .ok ())

/-- Wrap an operation's error with its contextual message (`fmt.Errorf`
with `%w`). -/
def wrapErr (msg : String) : Except String Unit → Except String Unit
  | .error e => .error (msg ++ ": " ++ e)
  | .ok _ => .ok ()

/-- Method `Device.Ungroup`. -/
def Device.Ungroup (d : Device) (resp : Except String Unit) :
    List NetCall × Except String Unit :=
  let out := d.soap resp URN_AVTransport_1 "BecomeCoordinatorOfStandaloneGroup"
    [("InstanceID", "0")]
  (out.1, wrapErr "ungrouping" out.2)

/-- Method `Device.ClearQueue`. -/
def Device.ClearQueue (d : Device) (resp : Except String Unit) :
    List NetCall × Except String Unit :=
  let out := d.soap resp URN_AVTransport_1 "RemoveAllTracksFromQueue"
    [("InstanceID", "0")]
  (out.1, wrapErr "clearing queue" out.2)

/-- Method `Device.SetPlayMode`: the wire token is the Go map access
`playModeIDs[mode]` (zero value `""` for unmapped modes). -/
def Device.SetPlayMode (d : Device) (resp : Except String Unit) (mode : Int) :
    List NetCall × Except String Unit :=
  let out := d.soap resp URN_AVTransport_1 "SetPlayMode"
    [("InstanceID", "0"), ("NewPlayMode", playModeToken mode)]
  (out.1, wrapErr "setting play mode" out.2)

/-- Method `Device.SetVolume`: volume passed through as `strconv.Itoa(volume)`,
unvalidated. -/
def Device.SetVolume (d : Device) (resp : Except String Unit) (volume : Int) :
    List NetCall × Except String Unit :=
  let out := d.soap resp URN_RenderingControl_1 "SetVolume"
    [("InstanceID", "0"), ("Channel", "Master"), ("DesiredVolume", itoa volume)]
  (out.1, wrapErr "setting volume" out.2)

/-- Method `Device.SetSleepTimer`. -/
def Device.SetSleepTimer (d : Device) (resp : Except String Unit) (duration : Int) :
    List NetCall × Except String Unit :=
  let out := d.soap resp URN_AVTransport_1 "ConfigureSleepTimer"
    [("InstanceID", "0"), ("NewSleepTimerDuration", sleepTimerString duration)]
  (out.1, wrapErr "setting sleep timer" out.2)

/-- Method `Device.Play`. -/
def Device.Play (d : Device) (resp : Except String Unit) :
    List NetCall × Except String Unit :=
  let out := d.soap resp URN_AVTransport_1 "Play"
    [("InstanceID", "0"), ("Speed", "1")]
  (out.1, wrapErr "playing" out.2)

/-! ### Content listing parser and LoadSonosPlaylist -/

/-- A parsed DIDL-Lite `container` entry: id attribute, title, resource
locator. -/
structure ContentEntry where
  id : String
  title : String
  res : String
  deriving DecidableEq, Repr

/-- The fixed Browse request of `LoadSonosPlaylist`. -/
def browseArgs : List (String × String) :=
  [("ObjectID", "SQ:"), ("BrowseFlag", "BrowseDirectChildren"), ("Filter", "*"),
   ("StartingIndex", "0"), ("RequestedCount", "100"),
   ("SortCriteria", "+upnp:artist,+dc:title")]

/-- The scan of `LoadSonosPlaylist`: the `Res` of the first container whose
title equals the requested name, `""` (the `uri` variable's zero value) when
none matches. -/
def firstMatchRes : List ContentEntry → String → String
  | [], _ => ""
  | c :: rest, name => if c.title = name then c.res else firstMatchRes rest name

/-- The "playlist not found" error text of `LoadSonosPlaylist`
(`fmt.Errorf` with the requested name and the number of parsed containers). -/
def notFoundMsg (name : String) (n : Nat) : String :=
  "did not find Sonos playlist named " ++ goQuote name ++
    " (checked " ++ toString n ++ ")"

/-- The Browse network call of `LoadSonosPlaylist`. -/
def browseCall : NetCall :=
  NetCall.action true URN_ContentDirectory_1 "Browse" browseArgs

/-- The `AddURIToQueue` network call of `LoadSonosPlaylist` for a given
enqueued URI (metadata left at its zero value, insertion at queue position 1,
enqueue-as-next flagged). -/
def addURICall (uri : String) : NetCall :=
  NetCall.action true URN_AVTransport_1 "AddURIToQueue"
    [("InstanceID", "0"), ("EnqueuedURI", uri), ("EnqueuedURIMetaData", ""),
     ("DesiredFirstTrackNumberEnqueued", "1"), ("EnqueueAsNext", "1")]

/-- Method `Device.LoadSonosPlaylist`. Oracles: `browseResp` is the Browse call's
outcome (the `Result` DIDL-Lite string on success); `unmarshal` is
`xml.Unmarshal` restricted to the `didl.Container` destination: it yields the
container entries fully decoded before any syntax error together with
`some ()` when the document failed to parse (Go's decoder populates the
slice incrementally, so entries completed before a mid-document error
persist; on a fully successful parse the second component is `none`);
`addResp` is the `AddURIToQueue` outcome. The source's
`if xml.Unmarshal(...); err != nil` tests the prior (nil) `err`, so the
unmarshal error component is discarded and `didl` holds the decoded
entries either way. -/
def Device.LoadSonosPlaylist (d : Device) (browseResp : Except String String)
    (unmarshal : String → List ContentEntry × Option Unit)
    (addResp : Except String Unit) (playlistName : String) :
    List NetCall × Except String Unit :=
  match serviceClient d.dev URN_ContentDirectory_1 with
  | .error e => ([], .error ("browsing: " ++ e))
  | .ok _ =>
    match browseResp with
    | .error e => ([browseCall], .error ("browsing: " ++ e))
    | .ok result =>
      let didl := (unmarshal result).1
      let uri := firstMatchRes didl playlistName
      if uri = "" then
        ([browseCall], .error (notFoundMsg playlistName didl.length))
      else
        match serviceClient d.dev URN_AVTransport_1 with
        | .error e => ([browseCall], .error ("adding to queue: " ++ e))
        | .ok _ =>
          match addResp with
          | .error e => ([browseCall, addURICall uri], .error ("adding to queue: " ++ e))
          | .ok _ => ([browseCall, addURICall uri], .ok ())

/-! ### Concrete fixtures for evaluating the definitions -/

/-- A Sonos device advertising all four services used by the package. -/
def exDevFull : GoDevice :=
  { manufacturer := "Sonos, Inc.",
    services := [devPropertiesService, URN_AVTransport_1, URN_RenderingControl_1,
      URN_ContentDirectory_1] }

/-- A Sonos device advertising only the device-properties service. -/
def exDevBare : GoDevice :=
  { manufacturer := "Sonos, Inc.", services := [devPropertiesService] }

/-- A zone-resolved handle on `exDevFull`. -/
def exHandle : Device := { dev := exDevFull }

/-- A discovery entry whose zone query answers "Kitchen". -/
def exMRD1 : MRD := { err := none, dev := exDevFull, zoneResp := .ok "Kitchen" }

/-- A discovery entry whose zone query fails. -/
def exMRD2 : MRD := { err := none, dev := exDevBare, zoneResp := .error "boom" }

/-- A parsed container whose resource locator is the empty string. -/
def exEntryEmptyRes : ContentEntry := { id := "SQ:1", title := "Jazz", res := "" }

/-- A three-entry parsed listing whose second entry is titled "Jazz". -/
def exListing : List ContentEntry :=
  [{ id := "SQ:1", title := "Blues", res := "file:///pl/1" },
   { id := "SQ:2", title := "Jazz", res := "file:///pl/2" },
   { id := "SQ:3", title := "Rock", res := "file:///pl/3" }]

/-- A complete container entry titled "Jazz" with a usable locator. -/
def exEntryJazz : ContentEntry := { id := "SQ:9", title := "Jazz", res := "x-file:jazz" }

/-- An unmarshal outcome for a document that fails to parse after one
complete container entry: the entry persists in the destination slice and
the (discarded) error is reported. -/
def exPartialUnmarshal : String → List ContentEntry × Option Unit :=
  fun _ => ([exEntryJazz], some ())

/-! ### Helper lemmas -/

theorem lookupZone_zoneAppend (zs : List (String × List GoDevice)) (z0 : String)
    (dv : GoDevice) (z : String) :
    lookupZone (zoneAppend zs z0 dv) z =
      if z = z0 then some ((lookupZone zs z).getD [] ++ [dv]) else lookupZone zs z := by
  induction zs with
  | nil =>
    by_cases h : z = z0
    · subst h; simp [zoneAppend, lookupZone]
    · have h' : ¬z0 = z := fun hh => h hh.symm
      simp [zoneAppend, lookupZone, h, h']
  | cons p rest ih =>
    obtain ⟨k, ds⟩ := p
    by_cases hk : k = z0
    · subst hk
      by_cases hz : z = k
      · subst hz; simp [zoneAppend, lookupZone]
      · have hz' : ¬k = z := fun hh => hz hh.symm
        simp [zoneAppend, lookupZone, hz, hz']
    · by_cases hz : k = z
      · subst hz
        have h2 : ¬k = z0 := hk
        simp [zoneAppend, lookupZone, h2]
      · simp [zoneAppend, lookupZone, hk, hz, ih]

theorem discoverStep_char (st : Client × List NetCall) (m : MRD) :
    ((m.retained = true ∧ (discoverStep st m).1.devices = st.1.devices ++ [m.dev]) ∨
     (m.retained = false ∧ (discoverStep st m).1.devices = st.1.devices)) ∧
    ((m.zoned = true ∧ ∃ z, m.zoneResp = .ok z ∧
        (discoverStep st m).1.zones = zoneAppend st.1.zones z m.dev) ∨
     (m.zoned = false ∧ (discoverStep st m).1.zones = st.1.zones)) ∧
    ((discoverStep st m).2 = st.2 ∨
     (discoverStep st m).2 = st.2 ++
        [NetCall.action true devPropertiesService "GetZoneAttributes" []]) := by
  obtain ⟨err, dev, zr⟩ := m
  cases err with
  | some e => simp [discoverStep, MRD.retained, MRD.zoned]
  | none =>
    by_cases hc : containsSub dev.manufacturer "Sonos, Inc." = true
    · by_cases hs : dev.hasService devPropertiesService = true
      · cases zr with
        | error e =>
          simp [discoverStep, MRD.retained, MRD.zoned, hc, hs, Except.isOk, Except.toBool]
        | ok z =>
          simp [discoverStep, MRD.retained, MRD.zoned, hc, hs, Except.isOk, Except.toBool]
      · simp [discoverStep, MRD.retained, MRD.zoned, hc, hs]
    · simp [discoverStep, MRD.retained, MRD.zoned, hc]

theorem MRD.retained_of_zoned {m : MRD} (h : m.zoned = true) : m.retained = true := by
  unfold MRD.zoned at h
  simp only [Bool.and_eq_true] at h
  exact h.1.1

theorem discoverStep_devices_sub (st : Client × List NetCall) (m : MRD) {d : GoDevice}
    (h : d ∈ st.1.devices) : d ∈ (discoverStep st m).1.devices := by
  rcases (discoverStep_char st m).1 with ⟨_, he⟩ | ⟨_, he⟩ <;> rw [he]
  · exact List.mem_append_left _ h
  · exact h

theorem discoverLoop_devices_sub (l : List MRD) (st : Client × List NetCall) {d : GoDevice}
    (h : d ∈ st.1.devices) : d ∈ (discoverLoop st l).1.devices := by
  induction l generalizing st with
  | nil => exact h
  | cons m rest ih => exact ih (discoverStep st m) (discoverStep_devices_sub st m h)

theorem discoverLoop_retained_mem (l : List MRD) (st : Client × List NetCall) {m : MRD}
    (h1 : m ∈ l) (h2 : m.retained = true) : m.dev ∈ (discoverLoop st l).1.devices := by
  induction l generalizing st with
  | nil => cases h1
  | cons m0 rest ih =>
    rcases List.mem_cons.mp h1 with rfl | hmem
    · refine discoverLoop_devices_sub rest _ ?_
      rcases (discoverStep_char st m).1 with ⟨_, he⟩ | ⟨hr, _⟩
      · rw [he]; exact List.mem_append_right _ (List.mem_singleton.mpr rfl)
      · rw [h2] at hr; cases hr
    · exact ih (discoverStep st m0) hmem

/-- One-step preservation of the zones-are-among-devices invariant. -/
theorem discoverStep_zones_subset (st : Client × List NetCall) (m : MRD)
    (hinv : ∀ z d, d ∈ (lookupZone st.1.zones z).getD [] → d ∈ st.1.devices) :
    ∀ z d, d ∈ (lookupZone (discoverStep st m).1.zones z).getD [] →
      d ∈ (discoverStep st m).1.devices := by
  intro z d hd
  rcases (discoverStep_char st m).2.1 with ⟨hz, z0, hok, he⟩ | ⟨_, he⟩
  · rw [he, lookupZone_zoneAppend] at hd
    have hdev : (discoverStep st m).1.devices = st.1.devices ++ [m.dev] := by
      rcases (discoverStep_char st m).1 with ⟨_, h⟩ | ⟨hr, _⟩
      · exact h
      · rw [MRD.retained_of_zoned hz] at hr; cases hr
    by_cases hzz : z = z0
    · rw [if_pos hzz] at hd
      simp only [Option.getD_some] at hd
      rcases List.mem_append.mp hd with hold | hnew
      · rw [hdev]; exact List.mem_append_left _ (hinv z d hold)
      · rw [hdev, List.mem_singleton.mp hnew]
        exact List.mem_append_right _ (List.mem_singleton.mpr rfl)
    · rw [if_neg hzz] at hd
      exact discoverStep_devices_sub st m (hinv z d hd)
  · rw [he] at hd
    exact discoverStep_devices_sub st m (hinv z d hd)

theorem discoverLoop_zones_subset (l : List MRD) (st : Client × List NetCall)
    (hinv : ∀ z d, d ∈ (lookupZone st.1.zones z).getD [] → d ∈ st.1.devices) :
    ∀ z d, d ∈ (lookupZone (discoverLoop st l).1.zones z).getD [] →
      d ∈ (discoverLoop st l).1.devices := by
  induction l generalizing st with
  | nil => exact hinv
  | cons m rest ih => exact ih (discoverStep st m) (discoverStep_zones_subset st m hinv)

theorem discoverLoop_zones_nonempty (l : List MRD) (st : Client × List NetCall)
    (hinv : ∀ z devs, lookupZone st.1.zones z = some devs → devs ≠ []) :
    ∀ z devs, lookupZone (discoverLoop st l).1.zones z = some devs → devs ≠ [] := by
  induction l generalizing st with
  | nil => exact hinv
  | cons m rest ih =>
    refine ih (discoverStep st m) ?_
    intro z devs hz
    rcases (discoverStep_char st m).2.1 with ⟨_, z0, _, he⟩ | ⟨_, he⟩
    · rw [he, lookupZone_zoneAppend] at hz
      by_cases hzz : z = z0
      · rw [if_pos hzz] at hz
        cases hz
        exact fun h => absurd (List.append_eq_nil.mp h).2 (by simp)
      · rw [if_neg hzz] at hz; exact hinv z devs hz
    · rw [he] at hz; exact hinv z devs hz

theorem discoverLoop_not_zoned (l : List MRD) (st : Client × List NetCall) (d : GoDevice)
    (hinv : ∀ z, d ∉ (lookupZone st.1.zones z).getD [])
    (hl : ∀ m ∈ l, m.dev = d → m.zoned = false) :
    ∀ z, d ∉ (lookupZone (discoverLoop st l).1.zones z).getD [] := by
  induction l generalizing st with
  | nil => exact hinv
  | cons m rest ih =>
    refine ih (discoverStep st m) ?_ (fun m' hm' => hl m' (List.mem_cons_of_mem m hm'))
    intro z hd
    rcases (discoverStep_char st m).2.1 with ⟨hz, z0, _, he⟩ | ⟨_, he⟩
    · rw [he, lookupZone_zoneAppend] at hd
      by_cases hzz : z = z0
      · rw [if_pos hzz] at hd
        simp only [Option.getD_some] at hd
        rcases List.mem_append.mp hd with hold | hnew
        · exact hinv z hold
        · have hdm : m.dev = d := (List.mem_singleton.mp hnew).symm
          rw [hl m (List.mem_cons_self m rest) hdm] at hz
          cases hz
      · rw [if_neg hzz] at hd; exact hinv z hd
    · rw [he] at hd; exact hinv z hd

theorem discoverLoop_trace (l : List MRD) (st : Client × List NetCall) :
    ∃ suf, (discoverLoop st l).2 = st.2 ++ suf ∧ ∀ c ∈ suf, c.receivesCtx = true := by
  induction l generalizing st with
  | nil => exact ⟨[], by simp [discoverLoop]⟩
  | cons m rest ih =>
    obtain ⟨suf, hsuf, hall⟩ := ih (discoverStep st m)
    rcases (discoverStep_char st m).2.2 with he | he
    · exact ⟨suf,
        by rw [show discoverLoop st (m :: rest) = discoverLoop (discoverStep st m) rest
            from rfl, hsuf, he],
        hall⟩
    · refine ⟨NetCall.action true devPropertiesService "GetZoneAttributes" [] :: suf, ?_, ?_⟩
      · rw [show discoverLoop st (m :: rest) = discoverLoop (discoverStep st m) rest
            from rfl, hsuf, he]
        simp
      · intro c hc
        rcases List.mem_cons.mp hc with rfl | hc'
        · rfl
        · exact hall c hc'

theorem findAV1_eq (zone : String) (devs : List GoDevice) :
    findAV1 zone devs =
      match devs.find? (fun d => d.hasService URN_AVTransport_1) with
      | some d => .ok { dev := d }
      | none => .error ("did not find an AV1 service in zone " ++ goQuote zone) := by
  induction devs with
  | nil => rfl
  | cons d rest ih =>
    by_cases h : d.hasService URN_AVTransport_1 = true
    · simp [findAV1, serviceClient, h, List.find?_cons_of_pos]
    · have h' : d.hasService URN_AVTransport_1 = false := by
        cases hh : d.hasService URN_AVTransport_1
        · rfl
        · exact absurd hh h
      simp [findAV1, serviceClient, h', List.find?_cons_of_neg, ih]

theorem firstMatchRes_eq (L : List ContentEntry) (name : String) :
    firstMatchRes L name =
      match L.find? (fun c => c.title = name) with
      | some c => c.res
      | none => "" := by
  induction L with
  | nil => rfl
  | cons c rest ih =>
    by_cases h : c.title = name
    · simp [firstMatchRes, h, List.find?_cons_of_pos]
    · simp [firstMatchRes, h, List.find?_cons_of_neg, ih]

theorem soap_trace_ctx (d : Device) (resp : Except String Unit) (st a : String)
    (args : List (String × String)) :
    ∀ c ∈ (d.soap resp st a args).1, c.receivesCtx = true := by
  unfold Device.soap
  cases serviceClient d.dev st <;> intro c hc
  · cases hc
  · rcases List.mem_singleton.mp hc with rfl
    rfl

theorem mem_ite_fst {A : Prop} [Decidable A] {x y : List NetCall × Except String Unit}
    {c : NetCall} (h : c ∈ (if A then x else y).1) : c ∈ x.1 ∨ c ∈ y.1 := by
  by_cases hA : A
  · rw [if_pos hA] at h; exact Or.inl h
  · rw [if_neg hA] at h; exact Or.inr h

/-! ### Claim theorems -/

/-- C1: For a `Client` produced by discovery and any zone name `z`:
if `z` is not a key of the zone mapping, `ZoneDevice` fails with the
"unknown zone" error; a present key always holds a non-empty device list
(so "known zone with no recorded devices" never arises); for a known zone,
the handle wraps the first device of the zone's list, in discovery order,
advertising the AVTransport (transport-control) service; and if no device
of a known zone advertises it, the distinct "no usable device" error is
returned. -/
theorem ZoneDevice_spec (mrds : List MRD) (z : String) :
    (lookupZone (discoverRun mrds).1.zones z = none →
      (discoverRun mrds).1.ZoneDevice z =
        .error ("unknown zone " ++ goQuote z ++ ", or it has no devices")) ∧
    (∀ devs, lookupZone (discoverRun mrds).1.zones z = some devs →
      devs ≠ [] ∧
      (∀ d, devs.find? (fun d => d.hasService URN_AVTransport_1) = some d →
        (discoverRun mrds).1.ZoneDevice z = .ok { dev := d }) ∧
      (devs.find? (fun d => d.hasService URN_AVTransport_1) = none →
        (discoverRun mrds).1.ZoneDevice z =
          .error ("did not find an AV1 service in zone " ++ goQuote z))) := by
  refine ⟨?_, ?_⟩
  · intro h
    unfold Client.ZoneDevice
    rw [h]
  · intro devs hdevs
    refine ⟨?_, ?_, ?_⟩
    · exact discoverLoop_zones_nonempty mrds _
        (by intro z' devs' h; simp [lookupZone] at h) z devs hdevs
    · intro d hd
      unfold Client.ZoneDevice
      rw [hdevs]
      show findAV1 z devs = _
      rw [findAV1_eq, hd]
    · intro hnone
      unfold Client.ZoneDevice
      rw [hdevs]
      show findAV1 z devs = _
      rw [findAV1_eq, hnone]

/-- C1 witness: in a discovered two-device setup, `ZoneDevice "Kitchen"`
returns the handle on the full device. -/
theorem ZoneDevice_spec_witness :
    (discoverRun [exMRD1, exMRD2]).1.ZoneDevice "Kitchen" = .ok { dev := exDevFull } := by
  have h := (ZoneDevice_spec [exMRD1, exMRD2] "Kitchen").2 [exDevFull] (by decide)
  exact h.2.1 exDevFull (by decide)

/-- C2 counterexample: a listing whose only entry is titled "Jazz" but has an
empty resource locator. The claim says a title match always yields an
`AddURIToQueue` call with that entry's locator, yet the code returns the
"playlist not found" error (count 1) and issues no `AddURIToQueue` call. -/
theorem LoadSonosPlaylist_emptyRes_cex :
    exEntryEmptyRes ∈ [exEntryEmptyRes] ∧ exEntryEmptyRes.title = "Jazz" ∧
    exHandle.LoadSonosPlaylist (.ok "listing") (fun _ => ([exEntryEmptyRes], none)) (.ok ())
      "Jazz" = ([browseCall], .error (notFoundMsg "Jazz" 1)) := by
  refine ⟨List.mem_singleton.mpr rfl, rfl, ?_⟩
  rfl

/-- C2 (amended): with the content-directory and transport services resolved
and the Browse result parsing to listing `L`, `LoadSonosPlaylist` scans `L`
for the first entry whose title equals the requested name (case-sensitive).
If no entry matches, it fails with the "playlist not found" error carrying
`L.length` (0 for the empty listing). If the first matching entry has a
non-empty resource locator, exactly one `AddURIToQueue` call is issued with
that locator. If the first matching entry's locator is empty, the operation
also fails with "playlist not found" carrying `L.length`. -/
theorem LoadSonosPlaylist_spec (d : Device) (s : String)
    (unmarshal : String → List ContentEntry × Option Unit) (addResp : Except String Unit)
    (name : String) (L : List ContentEntry)
    (hcd : d.dev.hasService URN_ContentDirectory_1 = true)
    (hav : d.dev.hasService URN_AVTransport_1 = true)
    (hL : unmarshal s = (L, none)) :
    ((∀ c ∈ L, c.title ≠ name) →
      d.LoadSonosPlaylist (.ok s) unmarshal addResp name =
        ([browseCall], .error (notFoundMsg name L.length))) ∧
    (∀ c, L.find? (fun c => c.title = name) = some c → c.res ≠ "" →
      (d.LoadSonosPlaylist (.ok s) unmarshal addResp name).1 =
        [browseCall, addURICall c.res] ∧
      (addResp = .ok () →
        (d.LoadSonosPlaylist (.ok s) unmarshal addResp name).2 = .ok ())) ∧
    (∀ c, L.find? (fun c => c.title = name) = some c → c.res = "" →
      d.LoadSonosPlaylist (.ok s) unmarshal addResp name =
        ([browseCall], .error (notFoundMsg name L.length))) := by
  have hbase : d.LoadSonosPlaylist (.ok s) unmarshal addResp name =
      (if firstMatchRes L name = "" then
        ([browseCall], .error (notFoundMsg name L.length))
      else
        match addResp with
        | .error e => ([browseCall, addURICall (firstMatchRes L name)],
            .error ("adding to queue: " ++ e))
        | .ok _ => ([browseCall, addURICall (firstMatchRes L name)], .ok ())) := by
    unfold Device.LoadSonosPlaylist
    rw [show serviceClient d.dev URN_ContentDirectory_1 = .ok () from by
        simp [serviceClient, hcd],
      show serviceClient d.dev URN_AVTransport_1 = .ok () from by
        simp [serviceClient, hav]]
    simp only [hL]
  refine ⟨?_, ?_, ?_⟩
  · intro hnone
    have hfm : firstMatchRes L name = "" := by
      rw [firstMatchRes_eq, List.find?_eq_none.mpr (by
        intro c hc
        simpa using hnone c hc)]
    rw [hbase, if_pos hfm]
  · intro c hfind hres
    have hfm : firstMatchRes L name = c.res := by
      rw [firstMatchRes_eq, hfind]
    constructor
    · rw [hbase, if_neg (by rw [hfm]; exact hres), hfm]
      cases addResp <;> rfl
    · intro har
      subst har
      rw [hbase, if_neg (by rw [hfm]; exact hres)]
  · intro c hfind hres
    have hfm : firstMatchRes L name = "" := by
      rw [firstMatchRes_eq, hfind]
      exact hres
    rw [hbase, if_pos hfm]

/-- C2 witness: on the three-entry listing, requesting "Jazz" (entry 2)
issues exactly the Browse call and one `AddURIToQueue` call with entry 2's
locator; requesting a missing name fails reporting count 3. -/
theorem LoadSonosPlaylist_spec_witness :
    (exHandle.LoadSonosPlaylist (.ok "listing") (fun _ => (exListing, none)) (.ok ())
      "Jazz").1 = [browseCall, addURICall "file:///pl/2"] ∧
    exHandle.LoadSonosPlaylist (.ok "listing") (fun _ => (exListing, none)) (.ok ()) "Missing"
      = ([browseCall], .error (notFoundMsg "Missing" 3)) := by
  have h1 := (LoadSonosPlaylist_spec exHandle "listing" (fun _ => (exListing, none)) (.ok ())
    "Jazz" exListing (by decide) (by decide) rfl).2.1
      { id := "SQ:2", title := "Jazz", res := "file:///pl/2" } (by decide) (by decide)
  have h2 := (LoadSonosPlaylist_spec exHandle "listing" (fun _ => (exListing, none)) (.ok ())
    "Missing" exListing (by decide) (by decide) rfl).1 (by decide)
  exact ⟨h1.1, h2⟩

/-- C3: the sleep-timer wire string equals the specification's encoding for
every duration (nanoseconds): empty for non-positive durations, zero-padded
`HH:MM:SS` of the whole hours / minutes-of-hour / seconds-of-minute of the
duration truncated to whole seconds; in particular 0 encodes to the empty
string, 1h2m3s to "01:02:03" and 90s to "00:01:30". -/
theorem SetSleepTimer_encoding :
    (∀ dur : Int, sleepTimerString dur = sleepTimerStringSpec dur) ∧
    sleepTimerString 0 = "" ∧
    sleepTimerString (-1000000000) = "" ∧
    sleepTimerString (3723 * nsPerSecond) = "01:02:03" ∧
    sleepTimerString (90 * nsPerSecond) = "00:01:30" := by
  refine ⟨?_, by decide, by decide, by decide, by decide⟩
  intro d
  by_cases h : d > 0
  · simp only [sleepTimerString, sleepTimerStringSpec, if_pos h, nsPerHour, nsPerMinute,
      nsPerSecond]
    have h1 : d / 3600000000000 = d / 1000000000 / 3600 := by omega
    have h2 : (d - d / 3600000000000 * 3600000000000) / 60000000000
        = d / 1000000000 / 60 % 60 := by omega
    have h3 : (d - d / 3600000000000 * 3600000000000 -
        (d - d / 3600000000000 * 3600000000000) / 60000000000 * 60000000000) / 1000000000
        = d / 1000000000 % 60 := by omega
    rw [h3, h2, h1]
  · simp only [sleepTimerString, sleepTimerStringSpec, if_neg h]

/-- C4 counterexample: the discovery probe (`goupnp.DiscoverDevices`) is a
network call issued without the caller-supplied context, refuting the claim
that every network call of this layer receives it. -/
theorem Discover_probe_no_ctx_cex :
    NetCall.probe devPropertiesService false ∈ (Discover (.ok [exMRD1])).1 ∧
    (NetCall.probe devPropertiesService false).receivesCtx = false := by
  constructor
  · decide
  · rfl

/-- C4 (amended): the per-device zone-attribute query and every
control-action invocation are performed with the caller-supplied context
(`PerformActionCtx`), but the discovery probe is issued without it: the
probe is always the first network call of `Discover` and carries no context,
while every subsequent discovery call and every call of every control
operation receives the context. -/
theorem ctx_propagation :
    (∀ pr, ∃ rest, (Discover pr).1 = NetCall.probe devPropertiesService false :: rest ∧
      ∀ c ∈ rest, c.receivesCtx = true) ∧
    (∀ d resp, ∀ c ∈ (Device.Ungroup d resp).1, c.receivesCtx = true) ∧
    (∀ d resp, ∀ c ∈ (Device.ClearQueue d resp).1, c.receivesCtx = true) ∧
    (∀ d resp mode, ∀ c ∈ (Device.SetPlayMode d resp mode).1, c.receivesCtx = true) ∧
    (∀ d resp v, ∀ c ∈ (Device.SetVolume d resp v).1, c.receivesCtx = true) ∧
    (∀ d resp dur, ∀ c ∈ (Device.SetSleepTimer d resp dur).1, c.receivesCtx = true) ∧
    (∀ d resp, ∀ c ∈ (Device.Play d resp).1, c.receivesCtx = true) ∧
    (∀ d br unm ar nm, ∀ c ∈ (Device.LoadSonosPlaylist d br unm ar nm).1,
      c.receivesCtx = true) := by
  refine ⟨?_, ?_, ?_, ?_, ?_, ?_, ?_, ?_⟩
  · intro pr
    cases pr with
    | error e => exact ⟨[], rfl, by intro c hc; cases hc⟩
    | ok mrds =>
      obtain ⟨suf, hsuf, hall⟩ := discoverLoop_trace mrds
        ({ devices := [], zones := [] }, [NetCall.probe devPropertiesService false])
      refine ⟨suf, ?_, hall⟩
      show (discoverRun mrds).2 = _
      rw [show discoverRun mrds = discoverLoop
        ({ devices := [], zones := [] }, [NetCall.probe devPropertiesService false]) mrds
        from rfl, hsuf]
      rfl
  · exact fun d resp => soap_trace_ctx d resp _ _ _
  · exact fun d resp => soap_trace_ctx d resp _ _ _
  · exact fun d resp mode => soap_trace_ctx d resp _ _ _
  · exact fun d resp v => soap_trace_ctx d resp _ _ _
  · exact fun d resp dur => soap_trace_ctx d resp _ _ _
  · exact fun d resp => soap_trace_ctx d resp _ _ _
  · intro d br unm ar nm
    unfold Device.LoadSonosPlaylist
    repeat' split
    all_goals intro c hc
    all_goals try simp only [List.mem_cons, List.mem_singleton, List.not_mem_nil,
      or_false] at hc
    all_goals first
      | ((rcases hc with rfl | rfl) <;> rfl)
      | (rcases hc with rfl; rfl)
      | (rcases mem_ite_fst hc with h2 | h2 <;>
          (simp only [List.mem_cons, List.mem_singleton, List.not_mem_nil,
            or_false] at h2 <;>
           first
             | ((rcases h2 with rfl | rfl) <;> rfl)
             | (rcases h2 with rfl; rfl)))

/-- C4 witness: the `SetVolume` action call of a control operation carries
the caller's context. -/
theorem ctx_propagation_witness :
    (NetCall.action true URN_RenderingControl_1 "SetVolume"
      [("InstanceID", "0"), ("Channel", "Master"), ("DesiredVolume", "42")]).receivesCtx
      = true :=
  ctx_propagation.2.2.2.2.1 exHandle (.ok ()) 42 _ (by decide)

/-- C5: the PlayMode-to-wire-token encoding is total on the six declared
constants, mapping each to its fixed token, and injective: distinct declared
modes never share a token. -/
theorem playMode_encoding :
    declaredPlayModes.map playModeToken =
      ["NORMAL", "REPEAT_ALL", "REPEAT_ONE", "SHUFFLE_NOREPEAT", "SHUFFLE",
       "SHUFFLE_REPEAT_ONE"] ∧
    declaredPlayModes.Pairwise (fun a b => playModeToken a ≠ playModeToken b) := by
  decide

/-- C6: every device recorded under any zone of a discovered `Client` also
appears in the flat discovered-device list. -/
theorem zones_subset_devices (mrds : List MRD) (z : String) (d : GoDevice)
    (h : d ∈ (discoverRun mrds).1.zoneDevs z) : d ∈ (discoverRun mrds).1.devices := by
  unfold Client.zoneDevs at h
  exact discoverLoop_zones_subset mrds _
    (by intro z' d' h'; simp [lookupZone] at h') z d h

/-- C6 witness: the zoned device of the concrete discovery input is in the
flat list. -/
theorem zones_subset_devices_witness :
    exDevFull ∈ (discoverRun [exMRD1, exMRD2]).1.zoneDevs "Kitchen" ∧
    exDevFull ∈ (discoverRun [exMRD1, exMRD2]).1.devices :=
  ⟨by decide, zones_subset_devices [exMRD1, exMRD2] "Kitchen" exDevFull (by decide)⟩

/-- C7: a retained (vendor-matching) discovery entry whose zone-properties
resolution or `GetZoneAttributes` invocation fails is kept in the flat
device list but added to no zone; `h4` captures that no other discovery
entry carries the same device (in the source each entry wraps a distinct
`*goupnp.Device` allocation). -/
theorem discover_zone_failure_nonfatal (mrds : List MRD) (m : MRD)
    (h1 : m ∈ mrds) (h2 : m.retained = true)
    (_h3 : m.dev.hasService devPropertiesService = false ∨ ∃ e, m.zoneResp = .error e)
    (h4 : ∀ m' ∈ mrds, m'.dev = m.dev → m'.zoned = false) :
    m.dev ∈ (discoverRun mrds).1.devices ∧
    ∀ z, m.dev ∉ (discoverRun mrds).1.zoneDevs z := by
  constructor
  · exact discoverLoop_retained_mem mrds _ h1 h2
  · intro z
    unfold Client.zoneDevs
    exact discoverLoop_not_zoned mrds _ m.dev
      (by intro z'; simp [lookupZone]) h4 z

/-- C7 witness: the entry whose zone query fails is retained in the flat
list and absent from the "Kitchen" zone. -/
theorem discover_zone_failure_nonfatal_witness :
    exDevBare ∈ (discoverRun [exMRD1, exMRD2]).1.devices ∧
    exDevBare ∉ (discoverRun [exMRD1, exMRD2]).1.zoneDevs "Kitchen" := by
  have h := discover_zone_failure_nonfatal [exMRD1, exMRD2] exMRD2
    (List.mem_cons_of_mem _ (List.mem_singleton.mpr rfl))
    (by decide)
    (Or.inr ⟨"boom", rfl⟩)
    (by
      intro m' hm' hdev
      rcases List.mem_cons.mp hm' with rfl | hm''
      · exact absurd hdev (by decide)
      · rcases List.mem_singleton.mp hm'' with rfl
        decide)
  exact ⟨h.1, h.2 "Kitchen"⟩

/-- C8: for every integer volume (also out of range), `SetVolume` issues
exactly one `SetVolume` action against the rendering-control service with
instance id "0", channel "Master" and the volume's decimal string, with no
validation or clamping; a successful remote call yields success. -/
theorem SetVolume_passthrough (d : Device) (resp : Except String Unit) (v : Int)
    (hs : d.dev.hasService URN_RenderingControl_1 = true) :
    (d.SetVolume resp v).1 = [NetCall.action true URN_RenderingControl_1 "SetVolume"
      [("InstanceID", "0"), ("Channel", "Master"), ("DesiredVolume", itoa v)]] ∧
    (resp = .ok () → (d.SetVolume resp v).2 = .ok ()) := by
  constructor
  · simp [Device.SetVolume, Device.soap, serviceClient, hs]
  · intro h
    subst h
    simp [Device.SetVolume, Device.soap, serviceClient, hs, wrapErr]

/-- C8 witness: the out-of-range volume 150 is passed through as "150". -/
theorem SetVolume_passthrough_witness :
    (exHandle.SetVolume (.ok ()) 150).1 =
      [NetCall.action true URN_RenderingControl_1 "SetVolume"
        [("InstanceID", "0"), ("Channel", "Master"), ("DesiredVolume", "150")]] := by
  have h := (SetVolume_passthrough exHandle (.ok ()) 150 (by decide)).1
  rw [h]
  rfl

/-- C9 counterexample: a Browse result that fails to parse after one fully
decoded container entry titled "Jazz". Go's decoder leaves that entry in
`didl.Container`, the stale-`err` test discards the parse error, and the
operation matches the entry and issues `AddURIToQueue` — it does not fail
with "playlist not found" reporting count 0 as the claim states. -/
theorem LoadSonosPlaylist_partial_parse_cex :
    (exPartialUnmarshal "partial").2 = some () ∧
    exHandle.LoadSonosPlaylist (.ok "partial") exPartialUnmarshal (.ok ()) "Jazz"
      = ([browseCall, addURICall "x-file:jazz"], .ok ()) ∧
    exHandle.LoadSonosPlaylist (.ok "partial") exPartialUnmarshal (.ok ()) "Jazz"
      ≠ ([browseCall], .error (notFoundMsg "Jazz" 0)) := by
  refine ⟨rfl, rfl, ?_⟩
  intro h
  exact Except.noConfusion (congrArg Prod.snd h)

/-- C9 (amended): an unmarshal failure is silently discarded — the source
tests the stale `err` from the Browse call — so no parse error is surfaced
and the operation behaves exactly as on a successful parse of the container
entries decoded before the failure; in particular, when the document fails
before any complete entry, the listing is empty and the operation fails
with the "playlist not found" error reporting count 0. -/
theorem LoadSonosPlaylist_unmarshal_error_discarded (d : Device) (s : String)
    (unmarshal : String → List ContentEntry × Option Unit) (addResp : Except String Unit)
    (name : String)
    (hcd : d.dev.hasService URN_ContentDirectory_1 = true)
    (_hfail : (unmarshal s).2 = some ()) :
    d.LoadSonosPlaylist (.ok s) unmarshal addResp name
      = d.LoadSonosPlaylist (.ok s) (fun t => ((unmarshal t).1, none)) addResp name ∧
    ((unmarshal s).1 = [] →
      d.LoadSonosPlaylist (.ok s) unmarshal addResp name
        = ([browseCall], .error (notFoundMsg name 0))) := by
  constructor
  · rfl
  · intro hempty
    unfold Device.LoadSonosPlaylist
    rw [show serviceClient d.dev URN_ContentDirectory_1 = .ok () from by
        simp [serviceClient, hcd]]
    simp only [hempty]
    simp [firstMatchRes]

/-- C9 witness: a concrete parse failure before any complete entry yields
the count-0 "playlist not found" error, with no parse error surfaced. -/
theorem LoadSonosPlaylist_unmarshal_error_witness :
    exHandle.LoadSonosPlaylist (.ok "<bad") (fun _ => ([], some ())) (.ok ()) "Jazz"
      = ([browseCall], .error (notFoundMsg "Jazz" 0)) :=
  (LoadSonosPlaylist_unmarshal_error_discarded exHandle "<bad" (fun _ => ([], some ()))
    (.ok ()) "Jazz" (by decide) rfl).2 rfl

/-- C10: for any `PlayMode` value outside the six declared constants the map
lookup yields the zero value "", and `SetPlayMode` still issues the remote
action with `NewPlayMode` equal to the empty string instead of failing
locally. -/
theorem SetPlayMode_unmapped (m : Int) (hm : m ∉ declaredPlayModes) (d : Device)
    (resp : Except String Unit) (hs : d.dev.hasService URN_AVTransport_1 = true) :
    playModeToken m = "" ∧
    (d.SetPlayMode resp m).1 = [NetCall.action true URN_AVTransport_1 "SetPlayMode"
      [("InstanceID", "0"), ("NewPlayMode", "")]] := by
  have htok : playModeToken m = "" := by
    simp only [declaredPlayModes, NormalPlayMode, RepeatAll, RepeatOne, Shuffle,
      ShuffleRepeat, ShuffleRepeatOne, List.mem_cons, List.not_mem_nil, or_false,
      not_or] at hm
    obtain ⟨h0, h1, h2, h3, h4, h5⟩ := hm
    have b0 : (m == (0 : Int)) = false := beq_eq_false_iff_ne.mpr h0
    have b1 : (m == (1 : Int)) = false := beq_eq_false_iff_ne.mpr h1
    have b2 : (m == (2 : Int)) = false := beq_eq_false_iff_ne.mpr h2
    have b3 : (m == (3 : Int)) = false := beq_eq_false_iff_ne.mpr h3
    have b4 : (m == (4 : Int)) = false := beq_eq_false_iff_ne.mpr h4
    have b5 : (m == (5 : Int)) = false := beq_eq_false_iff_ne.mpr h5
    simp [playModeToken, playModeIDs, List.lookup, NormalPlayMode, RepeatAll, RepeatOne,
      Shuffle, ShuffleRepeat, ShuffleRepeatOne, b0, b1, b2, b3, b4, b5]
  refine ⟨htok, ?_⟩
  simp [Device.SetPlayMode, Device.soap, serviceClient, hs, htok]

/-- C10 witness: the undeclared mode 6 maps to "" and is sent as "". -/
theorem SetPlayMode_unmapped_witness :
    playModeToken 6 = "" ∧
    (exHandle.SetPlayMode (.ok ()) 6).1 = [NetCall.action true URN_AVTransport_1
      "SetPlayMode" [("InstanceID", "0"), ("NewPlayMode", "")]] :=
  SetPlayMode_unmapped 6 (by decide) exHandle (.ok ()) (by decide)

end Sonos
